import Mathlib

/-!
Verification of the wgpu-engine shell (src/main.rs): a shallow embedding of
the GPU surface manager (`RenderState`), the engine event loop (`Engine::run`)
and the repaint signal (`RepaintSignal`), with theorems about the per-frame
sequence, resize handling, error handling and loop termination.

External effects (calls into winit / wgpu / egui) are recorded as an explicit
action trace `Act`; wall-clock readings and GPU results that the code receives
from the environment are passed in as parameters (`FrameInputs`).
-/

namespace WgpuEngine

/-- Physical pixel size of the window (winit `PhysicalSize<u32>`). -/
structure PhysicalSize where
  width : Nat
  height : Nat
deriving DecidableEq, Repr

/-- Surface texture usage flags; the program only ever uses RENDER_ATTACHMENT. -/
inductive TextureUsages where
  | RENDER_ATTACHMENT
deriving DecidableEq, Repr

/-- Presentation mode; the program only ever uses Fifo (vsync-bounded). -/
inductive PresentMode where
  | Fifo
  | Immediate
  | Mailbox
deriving DecidableEq, Repr

/-- Graphics backend selection; the program selects VULKAN. -/
inductive Backends where
  | VULKAN
  | METAL
  | DX12
deriving DecidableEq, Repr

/-- Adapter power preference; the program selects HighPerformance. -/
inductive PowerPreference where
  | LowPower
  | HighPerformance
deriving DecidableEq, Repr

/-- Abstract surface texture format, identified by an opaque id. -/
structure TextureFormat where
  id : Nat
deriving DecidableEq, Repr

/-- wgpu `SurfaceConfiguration`, with the fields the program sets. -/
structure SurfaceConfiguration where
  usage : TextureUsages
  format : TextureFormat
  width : Nat
  height : Nat
  present_mode : PresentMode
deriving DecidableEq, Repr

/-- wgpu `SurfaceError`, restricted to the cases the program distinguishes:
`Outdated` is matched explicitly, every other error is collapsed into the
catch-all arm (carrying its display message). -/
inductive SurfaceError where
  | Outdated
  | OtherErr (msg : String)
deriving DecidableEq, Repr

/-- The `RenderState` fields whose values the Rust code computes itself:
the stored window size, the stored surface configuration, the configuration
most recently passed to `surface.configure` (the live surface's view of it),
and the previous UI build duration (`None` until the first rendered frame;
durations are abstract clock ticks). The device, queue, platform and render
pass objects are handles whose operations appear in the action trace. -/
structure RenderState where
  size : PhysicalSize
  surface_config : SurfaceConfiguration
  surface_applied : SurfaceConfiguration
  previous_ui_draw_time : Option Nat
deriving DecidableEq, Repr

/-- winit window events, restricted to the arms the program matches plus a
catch-all for all others (main.rs lines 75-83). -/
inductive WinWindowEvent where
  | Resized (size : PhysicalSize)
  | CloseRequested
  | OtherWindowEvent
deriving DecidableEq, Repr

/-- winit events as dispatched in `Engine::run` (main.rs lines 64-85):
RedrawRequested, MainEventsCleared, the user event
`RedrawEvent::RequestRedraw`, window events, and a catch-all. -/
inductive Event where
  | RedrawRequested
  | MainEventsCleared
  | UserRequestRedraw
  | WindowEvt (e : WinWindowEvent)
  | OtherEvent
deriving DecidableEq, Repr

/-- One external call made by the program, recorded in order. -/
inductive Act where
  | handle_event_act (ev : Event)
  | update_time_act
  | acquire_act
  | begin_frame_act
  | run_ui_act
  | end_frame_act
  | tessellate_act
  | update_buffers_act
  | execute_act
  | submit_act
  | present_act
  | eprintln_act (msg : String)
  | request_redraw_act
  | configure_surface_act (cfg : SurfaceConfiguration)
deriving DecidableEq, Repr

/-- Result of `surface.get_current_texture()`: a frame, or a surface error. -/
inductive AcquireResult where
  | ok
  | err (e : SurfaceError)
deriving DecidableEq, Repr

/-- Environment inputs consumed by one render step: the result of
`surface.get_current_texture()`, whether `egui_render_pass.execute` succeeds
(it is `unwrap`ped in the code), the measured UI build duration, and the
wall clock read when the redraw event arrives. -/
structure FrameInputs where
  acquire_result : AcquireResult
  execute_ok : Bool
  ui_elapsed : Nat
  now : Nat
deriving DecidableEq, Repr

/-- Result of one render step: the updated state, the trace of external calls,
and whether the step panicked (the code `unwrap`s the render-pass execute). -/
structure RenderResult where
  state : RenderState
  trace : List Act
  panicked : Bool
deriving DecidableEq, Repr

/-- Embedding of `RenderState::resize` (main.rs lines 168-175): no-op unless
both dimensions are positive; otherwise store the new size, update the stored
configuration's width and height, and re-apply it to the live surface. -/
def RenderState.resize (s : RenderState) (new_size : PhysicalSize) : RenderState × List Act :=
  if new_size.width > 0 && new_size.height > 0 then
    let cfg := { s.surface_config with width := new_size.width, height := new_size.height }
    ({ s with size := new_size, surface_config := cfg, surface_applied := cfg },
     [Act.configure_surface_act cfg])
  else
    (s, [])

/-- Embedding of `RenderState::update` (main.rs lines 177-179): forwards the
elapsed time to `platform.update_time`; no stored field changes. -/
def RenderState.update (s : RenderState) : RenderState × List Act :=
  (s, [Act.update_time_act])

/-- Embedding of `RenderState::render` (main.rs lines 181-263). The acquire
happens first; on `Outdated` the function returns at once, on any other error
it logs to stderr and returns. Only on a successful acquire does the UI
begin/run/end sequence, tessellation, buffer upload, render-pass execute
(whose failure would panic via the `unwrap`), submit and present happen,
and `previous_ui_draw_time` is updated. -/
def RenderState.render (s : RenderState) (inp : FrameInputs) : RenderResult :=
  match inp.acquire_result with
  | AcquireResult.err SurfaceError.Outdated =>
      { state := s, trace := [Act.acquire_act], panicked := false }
  | AcquireResult.err (SurfaceError.OtherErr msg) =>
      { state := s
        trace := [Act.acquire_act, Act.eprintln_act ("Dropped frame with error: " ++ msg)]
        panicked := false }
  | AcquireResult.ok =>
      let s' := { s with previous_ui_draw_time := some inp.ui_elapsed }
      if inp.execute_ok then
        { state := s'
          trace := [Act.acquire_act, Act.begin_frame_act, Act.run_ui_act,
                    Act.end_frame_act, Act.tessellate_act, Act.update_buffers_act,
                    Act.execute_act, Act.submit_act, Act.present_act]
          panicked := false }
      else
        { state := s'
          trace := [Act.acquire_act, Act.begin_frame_act, Act.run_ui_act,
                    Act.end_frame_act, Act.tessellate_act, Act.update_buffers_act,
                    Act.execute_act]
          panicked := true }

/-- GPU environment queried during `RenderState::new`: whether
`request_adapter` finds an adapter, whether `request_device` succeeds, the
format returned by `surface.get_preferred_format`, and which formats the
device/surface pair supports. The field `preferred_is_supported` records the
wgpu contract that a returned preferred format is supported by both the
device and the surface (modelled from the spec, since wgpu is external). -/
structure GpuEnv where
  adapterFound : Bool
  deviceOk : Bool
  preferredFormat : Option TextureFormat
  formatSupported : TextureFormat → Bool
  preferred_is_supported :
    ∀ f, preferredFormat = some f → formatSupported f = true

/-- Compile-time constant from main.rs line 6. -/
def WIDTH : Nat := 1280

/-- Compile-time constant from main.rs line 7. -/
def HEIGHT : Nat := 720

/-- Backend selection in `RenderState::new` (main.rs line 105). -/
def RenderState.backends : Backends := Backends.VULKAN

/-- Power preference in `RenderState::new` (main.rs line 106). -/
def RenderState.power_preference : PowerPreference := PowerPreference.HighPerformance

/-- Presentation mode in `RenderState::new` (main.rs line 107). -/
def RenderState.present_mode : PresentMode := PresentMode.Fifo

/-- Embedding of `RenderState::new` (main.rs lines 104-166): the adapter and
device requests are `unwrap`ped (`none` models the fatal panic), as is
`get_preferred_format`; the surface configuration is built with
RENDER_ATTACHMENT usage, the preferred format, the window's current inner
size and Fifo present mode, and applied to the surface. -/
def RenderState.new (env : GpuEnv) (windowSize : PhysicalSize) : Option RenderState :=
  if env.adapterFound then
    if env.deviceOk then
      match env.preferredFormat with
      | some fmt =>
          let cfg : SurfaceConfiguration :=
            { usage := TextureUsages.RENDER_ATTACHMENT
              format := fmt
              width := windowSize.width
              height := windowSize.height
              present_mode := RenderState.present_mode }
          some { size := windowSize
                 surface_config := cfg
                 surface_applied := cfg
                 previous_ui_draw_time := none }
      | none => none
    else none
  else none

/-- Modelled from the spec: `acquire_frame` ("for all resize events with
width>0 and height>0, a subsequent acquire succeeds (given a valid device)").
wgpu's `get_current_texture` is external to the repository; the model makes
acquire succeed exactly when the device is valid and the configuration last
applied to the surface is current for the window and has nonzero area,
failing with `Outdated` when plain stale and with an unspecified error when
the device is invalid. -/
def acquire_frame (deviceValid : Bool) (windowSize : PhysicalSize) (s : RenderState) :
    AcquireResult :=
  if deviceValid then
    if s.surface_applied.width == windowSize.width &&
       s.surface_applied.height == windowSize.height &&
       s.surface_applied.width > 0 && s.surface_applied.height > 0 then
      AcquireResult.ok
    else
      AcquireResult.err SurfaceError.Outdated
  else
    AcquireResult.err (SurfaceError.OtherErr "device lost")

/-- Window-builder arguments used by `Engine::load` (main.rs lines 32-42). -/
structure WindowBuilderArgs where
  decorations : Bool
  resizable : Bool
  transparent : Bool
  title : String
  inner_width : Nat
  inner_height : Nat
deriving DecidableEq, Repr

/-- The fixed window-builder arguments of `Engine::load`. -/
def Engine.window_builder : WindowBuilderArgs :=
  { decorations := true
    resizable := true
    transparent := false
    title := "wgpu-engine"
    inner_width := WIDTH
    inner_height := HEIGHT }

/-- Embedding of `Engine::load` (main.rs lines 29-52): builds the window
(`unwrap`ped: creation failure is fatal, modelled as `none`) with the fixed
1280×720 inner size, then initializes the render state with the window's
inner size. -/
def Engine.load (windowOk : Bool) (env : GpuEnv) : Option RenderState :=
  if windowOk then
    RenderState.new env { width := WIDTH, height := HEIGHT }
  else
    none

/-- winit control flow: the loop's default running state, and Exit. -/
inductive ControlFlow where
  | Poll
  | Exit
deriving DecidableEq, Repr

/-- Engine-loop state captured by the `event_loop.run` closure: the render
state, the `time` instant used for delta timing, and the control flow. -/
structure LoopState where
  render_state : RenderState
  time : Nat
  control_flow : ControlFlow
deriving DecidableEq, Repr

/-- Result of dispatching one event in the engine loop. -/
structure StepResult where
  state : LoopState
  acts : List Act
  panicked : Bool
deriving DecidableEq, Repr

/-- Embedding of one iteration of the `Engine::run` closure (main.rs lines
62-85): every event is first forwarded to `platform.handle_event`; then
RedrawRequested reads the clock and runs update+render, MainEventsCleared
and the user redraw event call `window.request_redraw`, Resized calls
`RenderState::resize`, CloseRequested sets the control flow to Exit, and
everything else does nothing further. -/
def Engine.step (s : LoopState) (ev : Event) (inp : FrameInputs) : StepResult :=
  let pre := [Act.handle_event_act ev]
  match ev with
  | Event.RedrawRequested =>
      let (rs1, uacts) := s.render_state.update
      let r := rs1.render inp
      { state := { s with time := inp.now, render_state := r.state }
        acts := pre ++ uacts ++ r.trace
        panicked := r.panicked }
  | Event.MainEventsCleared =>
      { state := s, acts := pre ++ [Act.request_redraw_act], panicked := false }
  | Event.UserRequestRedraw =>
      { state := s, acts := pre ++ [Act.request_redraw_act], panicked := false }
  | Event.WindowEvt (WinWindowEvent.Resized sz) =>
      let (rs', racts) := s.render_state.resize sz
      { state := { s with render_state := rs' }
        acts := pre ++ racts
        panicked := false }
  | Event.WindowEvt WinWindowEvent.CloseRequested =>
      { state := { s with control_flow := ControlFlow.Exit }, acts := pre, panicked := false }
  | Event.WindowEvt WinWindowEvent.OtherWindowEvent =>
      { state := s, acts := pre, panicked := false }
  | Event.OtherEvent =>
      { state := s, acts := pre, panicked := false }

/-- The platform event loop driving the closure. Modelled from the spec
("loop exits cleanly, no further events processed"): winit is external to
the repository, so its contract — once the callback sets `ControlFlow::Exit`
no further events are dispatched — is taken as given; a panic likewise ends
the process, so dispatch stops there too. -/
def Engine.runLoop (s : LoopState) : List (Event × FrameInputs) → LoopState × List Act
  | [] => (s, [])
  | (ev, inp) :: rest =>
      match s.control_flow with
      | ControlFlow.Exit => (s, [])
      | ControlFlow.Poll =>
          let r := Engine.step s ev inp
          if r.panicked then
            (r.state, r.acts)
          else
            let (s', acts') := Engine.runLoop r.state rest
            (s', r.acts ++ acts')

/-- Observable state of the repaint-signal pathway: `pending` counts
`RedrawEvent::RequestRedraw` user events sitting in the winit event queue
(they are all identical, so a count models the FIFO), and
`redraw_requested` is the window's coalesced pending-redraw flag set by
`window.request_redraw()`. The `Mutex` around the `EventLoopProxy` in
`RepaintSignal` (main.rs line 15) serializes concurrent senders, so each
call is modelled as one atomic enqueue. -/
structure RepaintState where
  pending : Nat
  redraw_requested : Bool
deriving DecidableEq, Repr

/-- Embedding of `RepaintSignal::request_repaint` (main.rs lines 17-19):
locks the proxy and sends one `RedrawEvent::RequestRedraw` user event. -/
def RepaintSignal.request_repaint (q : RepaintState) : RepaintState :=
  { q with pending := q.pending + 1 }

/-- One event-loop cycle from the repaint pathway's point of view: if a
queued user event exists it is observed by the loop, whose
`UserEvent(RequestRedraw)` arm calls `window.request_redraw()` (main.rs
lines 72-74), setting the window's coalesced redraw flag. Returns whether a
user event was observed this cycle. -/
def deliverUserEvent (q : RepaintState) : RepaintState × Bool :=
  if q.pending > 0 then
    ({ pending := q.pending - 1, redraw_requested := true }, true)
  else
    (q, false)

/-- Running `n` event-loop cycles, counting how many queued repaint user
events the loop observes. -/
def deliverCycles : Nat → RepaintState → RepaintState × Nat
  | 0, q => (q, 0)
  | n + 1, q =>
      let (q', observed) := deliverUserEvent q
      let (q'', k) := deliverCycles n q'
      (q'', (if observed then 1 else 0) + k)

/-- The platform emitting a RedrawRequested event when a redraw is pending:
the coalesced flag is cleared and the loop performs one redraw. Returns
whether a redraw happened. -/
def dispatchRedraw (q : RepaintState) : RepaintState × Bool :=
  if q.redraw_requested then
    ({ q with redraw_requested := false }, true)
  else
    (q, false)

/-- A concrete surface configuration for evaluating the model. -/
def sampleConfig : SurfaceConfiguration :=
  { usage := TextureUsages.RENDER_ATTACHMENT
    format := { id := 0 }
    width := 1280
    height := 720
    present_mode := PresentMode.Fifo }

/-- A concrete render state at the 1280×720 startup size. -/
def sampleRenderState : RenderState :=
  { size := { width := 1280, height := 720 }
    surface_config := sampleConfig
    surface_applied := sampleConfig
    previous_ui_draw_time := none }

/-- A concrete engine-loop state in the running control flow. -/
def sampleLoopState : LoopState :=
  { render_state := sampleRenderState, time := 0, control_flow := ControlFlow.Poll }

/-- Concrete frame inputs with a successful acquire. -/
def sampleOkInputs : FrameInputs :=
  { acquire_result := AcquireResult.ok, execute_ok := true, ui_elapsed := 1, now := 2 }

/-- Concrete frame inputs whose acquire fails with `Outdated`. -/
def sampleOutdatedInputs : FrameInputs :=
  { acquire_result := AcquireResult.err SurfaceError.Outdated
    execute_ok := true, ui_elapsed := 1, now := 2 }

/-- C1: counterexample to the claim as stated. On a redraw-requested event
whose GPU frame acquire fails recoverably (`Outdated`), the code returns
from `render` before `platform.begin_frame` is ever reached (main.rs line
184 precedes line 194), so zero UI begin/end pairs occur — not the claimed
exactly one. No GPU submission happens either. -/
theorem c1_begin_end_counterexample :
    (Engine.step sampleLoopState Event.RedrawRequested sampleOutdatedInputs).acts.count
        Act.begin_frame_act = 0 ∧
    (Engine.step sampleLoopState Event.RedrawRequested sampleOutdatedInputs).acts.count
        Act.end_frame_act = 0 ∧
    (Engine.step sampleLoopState Event.RedrawRequested sampleOutdatedInputs).acts.count
        Act.submit_act = 0 ∧
    ¬ (Engine.step sampleLoopState Event.RedrawRequested sampleOutdatedInputs).acts.count
        Act.begin_frame_act = 1 := by
  decide

/-- C1 (amended): for every redraw-requested event processed by the engine
loop, exactly one UI begin_frame/end_frame pair occurs when the GPU frame
acquire succeeds; when the acquire fails (recoverably or otherwise) the
frame is skipped with no GPU submission and also with no UI begin/end pair,
since the acquire is attempted before the UI frame is opened. -/
theorem c1_begin_end_per_redraw (s : LoopState) (inp : FrameInputs) :
    (inp.acquire_result = AcquireResult.ok →
       (Engine.step s Event.RedrawRequested inp).acts.count Act.begin_frame_act = 1 ∧
       (Engine.step s Event.RedrawRequested inp).acts.count Act.end_frame_act = 1) ∧
    (∀ e, inp.acquire_result = AcquireResult.err e →
       (Engine.step s Event.RedrawRequested inp).acts.count Act.begin_frame_act = 0 ∧
       (Engine.step s Event.RedrawRequested inp).acts.count Act.end_frame_act = 0 ∧
       (Engine.step s Event.RedrawRequested inp).acts.count Act.submit_act = 0) := by
  obtain ⟨acq, exec, ui, now⟩ := inp
  constructor
  · rintro rfl
    cases exec <;>
      simp [Engine.step, RenderState.update, RenderState.render, List.count_cons]
  · rintro e rfl
    cases e <;>
      simp [Engine.step, RenderState.update, RenderState.render, List.count_cons]

/-- C1 witness: the amended theorem evaluated at a concrete successful frame. -/
theorem c1_begin_end_per_redraw_witness :
    (Engine.step sampleLoopState Event.RedrawRequested sampleOkInputs).acts.count
        Act.begin_frame_act = 1 ∧
    (Engine.step sampleLoopState Event.RedrawRequested sampleOkInputs).acts.count
        Act.end_frame_act = 1 :=
  (c1_begin_end_per_redraw sampleLoopState sampleOkInputs).1 rfl

/-- The render state after the spec scenario: start at 1280×720, resize to
0×600, then resize to 800×600. -/
def scenarioState : RenderState :=
  ((sampleRenderState.resize { width := 0, height := 600 }).1.resize
    { width := 800, height := 600 }).1

/-- C2: `resize` is a no-op when either dimension is zero, retaining the
stored configuration; otherwise it stores the new size, updates the
configuration's width and height, and re-applies it to the live surface.
In the scenario 1280×720 → 0×600 → 800×600 the resulting configuration is
width 800, height 600, and (given a valid device) two subsequent acquires —
one before and one after a rendered frame — both succeed. -/
theorem c2_resize_policy :
    (∀ (s : RenderState) (sz : PhysicalSize),
        sz.width = 0 ∨ sz.height = 0 → s.resize sz = (s, [])) ∧
    (∀ (s : RenderState) (sz : PhysicalSize), 0 < sz.width → 0 < sz.height →
        (s.resize sz).1.size = sz ∧
        (s.resize sz).1.surface_config =
          { s.surface_config with width := sz.width, height := sz.height } ∧
        (s.resize sz).1.surface_applied = (s.resize sz).1.surface_config) ∧
    scenarioState.surface_config.width = 800 ∧
    scenarioState.surface_config.height = 600 ∧
    acquire_frame true { width := 800, height := 600 } scenarioState = AcquireResult.ok ∧
    acquire_frame true { width := 800, height := 600 }
      (scenarioState.render sampleOkInputs).state = AcquireResult.ok := by
  refine ⟨?_, ?_, ?_, ?_, ?_, ?_⟩
  · rintro s sz (h | h) <;> simp [RenderState.resize, h]
  · intro s sz h1 h2
    simp [RenderState.resize, h1, h2]
  · decide
  · decide
  · decide
  · decide

/-- C2 witness: the theorem applied to the concrete zero-width resize. -/
theorem c2_resize_policy_witness :
    sampleRenderState.resize { width := 0, height := 600 } = (sampleRenderState, []) :=
  c2_resize_policy.1 sampleRenderState { width := 0, height := 600 } (Or.inl rfl)

/-- C3: when the frame acquire fails with `Outdated`, `render` returns at
once with no GPU submission, no logging and no panic; for any other acquire
error a message is written to the error stream and `render` likewise returns
without submission and without panicking; in both cases the redraw step
leaves the loop's control flow (and the render state) unchanged, so the loop
continues. -/
theorem c3_acquire_error_handling :
    (∀ (s : RenderState) (inp : FrameInputs),
        inp.acquire_result = AcquireResult.err SurfaceError.Outdated →
        s.render inp = { state := s, trace := [Act.acquire_act], panicked := false }) ∧
    (∀ (s : RenderState) (inp : FrameInputs) (msg : String),
        inp.acquire_result = AcquireResult.err (SurfaceError.OtherErr msg) →
        s.render inp =
          { state := s
            trace := [Act.acquire_act,
                      Act.eprintln_act ("Dropped frame with error: " ++ msg)]
            panicked := false }) ∧
    (∀ (s : LoopState) (inp : FrameInputs) (e : SurfaceError),
        inp.acquire_result = AcquireResult.err e →
        (Engine.step s Event.RedrawRequested inp).panicked = false ∧
        (Engine.step s Event.RedrawRequested inp).state.control_flow = s.control_flow ∧
        (Engine.step s Event.RedrawRequested inp).state.render_state = s.render_state ∧
        (Engine.step s Event.RedrawRequested inp).acts.count Act.submit_act = 0 ∧
        (Engine.step s Event.RedrawRequested inp).acts.count Act.present_act = 0) := by
  refine ⟨?_, ?_, ?_⟩
  · intro s inp h
    obtain ⟨acq, exec, ui, now⟩ := inp
    cases h
    simp [RenderState.render]
  · intro s inp msg h
    obtain ⟨acq, exec, ui, now⟩ := inp
    cases h
    simp [RenderState.render]
  · intro s inp e h
    obtain ⟨acq, exec, ui, now⟩ := inp
    cases h
    cases e <;>
      simp [Engine.step, RenderState.update, RenderState.render, List.count_cons]

/-- C3 witness: the theorem applied to a concrete `Outdated` acquire. -/
theorem c3_acquire_error_handling_witness :
    sampleRenderState.render sampleOutdatedInputs =
      { state := sampleRenderState, trace := [Act.acquire_act], panicked := false } :=
  c3_acquire_error_handling.1 sampleRenderState sampleOutdatedInputs rfl

/-- Running at least as many event-loop cycles as there are queued repaint
user events observes each of them exactly once (FIFO delivery, no loss). -/
lemma deliverCycles_observes_pending :
    ∀ (n : Nat) (q : RepaintState), q.pending ≤ n →
      (deliverCycles n q).2 = q.pending := by
  intro n
  induction n with
  | zero =>
      intro q h
      simp [deliverCycles, Nat.le_zero.mp h]
  | succ n ih =>
      intro q h
      obtain ⟨p, flag⟩ := q
      cases p with
      | zero =>
          simp [deliverCycles, deliverUserEvent]
          exact ih { pending := 0, redraw_requested := flag } (Nat.zero_le n)
      | succ p =>
          have hp : p ≤ n := by simp at h; omega
          have hq := ih { pending := p, redraw_requested := true } hp
          simp [deliverCycles, deliverUserEvent, hq]
          omega

/-- C4: each `request_repaint` call (serialized by the mutex around the
event-loop proxy, hence modelled as one atomic enqueue) adds exactly one
redraw-request user event to the queue; given enough event-loop cycles the
loop observes exactly one additional such event per call (eventual delivery,
no loss); and two rapid calls with no intervening redraw leave the window's
coalesced redraw flag set, so the next redraw dispatch performs at least one
redraw (coalescing allowed, complete dropping impossible). -/
theorem c4_repaint_signal (q : RepaintState) (n : Nat) :
    (RepaintSignal.request_repaint q).pending = q.pending + 1 ∧
    (q.pending + 1 ≤ n →
       (deliverCycles n (RepaintSignal.request_repaint q)).2 = q.pending + 1) ∧
    (dispatchRedraw
        (deliverUserEvent
          (RepaintSignal.request_repaint (RepaintSignal.request_repaint q))).1).2 = true := by
  refine ⟨rfl, ?_, ?_⟩
  · intro h
    exact deliverCycles_observes_pending n (RepaintSignal.request_repaint q) h
  · simp [RepaintSignal.request_repaint, deliverUserEvent, dispatchRedraw]

/-- C4 witness: the theorem applied to an empty queue with two cycles. -/
theorem c4_repaint_signal_witness :
    (deliverCycles 2 (RepaintSignal.request_repaint
        { pending := 0, redraw_requested := false })).2 = 0 + 1 :=
  (c4_repaint_signal { pending := 0, redraw_requested := false } 2).2.1 (by decide)

/-- Once the control flow is the terminal Exit state, the platform loop
dispatches no further events and emits no further actions. -/
lemma runLoop_exit (s : LoopState) (evs : List (Event × FrameInputs))
    (h : s.control_flow = ControlFlow.Exit) : Engine.runLoop s evs = (s, []) := by
  cases evs <;> simp [Engine.runLoop, h]

/-- C5: dispatching a close-requested event from the running state sets the
control flow to the terminal Exit state, and from that point the platform
loop dispatches nothing further: the only action emitted from the close
event onward is the unconditional forwarding of the close event itself to
`platform.handle_event`, so no UI begin/end and no GPU call occurs
afterward, whatever events were still queued. -/
theorem c5_close_terminates :
    (∀ (s : LoopState) (inp : FrameInputs) (rest : List (Event × FrameInputs)),
        s.control_flow = ControlFlow.Poll →
        Engine.runLoop s
            ((Event.WindowEvt WinWindowEvent.CloseRequested, inp) :: rest) =
          ({ s with control_flow := ControlFlow.Exit },
           [Act.handle_event_act (Event.WindowEvt WinWindowEvent.CloseRequested)])) ∧
    (∀ (s : LoopState) (evs : List (Event × FrameInputs)),
        s.control_flow = ControlFlow.Exit → Engine.runLoop s evs = (s, [])) := by
  constructor
  · intro s inp rest h
    simp [Engine.runLoop, Engine.step, h, runLoop_exit]
  · intro s evs h
    exact runLoop_exit s evs h

/-- C5 witness: a concrete run consisting of a close event followed by a
queued redraw event processes only the close. -/
theorem c5_close_terminates_witness :
    Engine.runLoop sampleLoopState
        ((Event.WindowEvt WinWindowEvent.CloseRequested, sampleOkInputs) ::
         (Event.RedrawRequested, sampleOkInputs) :: []) =
      ({ sampleLoopState with control_flow := ControlFlow.Exit },
       [Act.handle_event_act (Event.WindowEvt WinWindowEvent.CloseRequested)]) :=
  c5_close_terminates.1 sampleLoopState sampleOkInputs
    [(Event.RedrawRequested, sampleOkInputs)] rfl

/-- Classification of the actions that constitute rendering: the per-frame
sequence of timing update, UI build (begin/run/end), tessellation, buffer
upload, render-pass execution, submit and present. Event forwarding, redraw
requests, surface reconfiguration and error logging are not rendering. -/
def Act.isRenderAct : Act → Bool
  | Act.update_time_act => true
  | Act.acquire_act => true
  | Act.begin_frame_act => true
  | Act.run_ui_act => true
  | Act.end_frame_act => true
  | Act.tessellate_act => true
  | Act.update_buffers_act => true
  | Act.execute_act => true
  | Act.submit_act => true
  | Act.present_act => true
  | _ => false

/-- C6: rendering happens only in the redraw-requested handler — dispatching
any other event performs no render action — and the idle
(MainEventsCleared) and repaint-signal user events do exactly two things:
forward the event to the UI input handler and call
`window.request_redraw()`; they never render directly. -/
theorem c6_render_only_on_redraw :
    (∀ (s : LoopState) (ev : Event) (inp : FrameInputs), ev ≠ Event.RedrawRequested →
        ∀ a ∈ (Engine.step s ev inp).acts, a.isRenderAct = false) ∧
    (∀ (s : LoopState) (inp : FrameInputs),
        (Engine.step s Event.MainEventsCleared inp).acts =
          [Act.handle_event_act Event.MainEventsCleared, Act.request_redraw_act]) ∧
    (∀ (s : LoopState) (inp : FrameInputs),
        (Engine.step s Event.UserRequestRedraw inp).acts =
          [Act.handle_event_act Event.UserRequestRedraw, Act.request_redraw_act]) := by
  refine ⟨?_, fun s inp => rfl, fun s inp => rfl⟩
  intro s ev inp hne a ha
  cases ev with
  | RedrawRequested => exact absurd rfl hne
  | MainEventsCleared =>
      simp [Engine.step] at ha
      rcases ha with rfl | rfl <;> rfl
  | UserRequestRedraw =>
      simp [Engine.step] at ha
      rcases ha with rfl | rfl <;> rfl
  | OtherEvent =>
      simp [Engine.step] at ha
      subst ha; rfl
  | WindowEvt we =>
      cases we with
      | Resized sz =>
          simp only [Engine.step, RenderState.resize] at ha
          split at ha <;> simp at ha <;> rcases ha with rfl | rfl <;> rfl
      | CloseRequested =>
          simp [Engine.step] at ha
          subst ha; rfl
      | OtherWindowEvent =>
          simp [Engine.step] at ha
          subst ha; rfl

/-- C6 witness: the only-request-redraw shape evaluated on a concrete idle
event, through the non-redraw clause of the theorem. -/
theorem c6_render_only_on_redraw_witness :
    Act.isRenderAct Act.request_redraw_act = false :=
  c6_render_only_on_redraw.1 sampleLoopState Event.MainEventsCleared sampleOkInputs
    (by decide) Act.request_redraw_act (by simp [Engine.step])

/-- C7: every platform event dispatched to the engine loop is forwarded to
`platform.handle_event` unconditionally, as the very first action of the
iteration — including events on frames that are not rendered. -/
theorem c7_forward_all_events (s : LoopState) (ev : Event) (inp : FrameInputs) :
    (Engine.step s ev inp).acts.head? = some (Act.handle_event_act ev) := by
  cases ev with
  | WindowEvt we => cases we <;> rfl
  | _ => rfl

/-- C8: dispatching a resize event forwards the new size to
`RenderState::resize` and nothing else: the action trace is the
unconditional event forwarding followed by whatever surface reconfiguration
`resize` itself performs, no redraw is requested, the loop's clock and
control flow are untouched, and the step cannot panic. -/
theorem c8_resize_event (s : LoopState) (sz : PhysicalSize) (inp : FrameInputs) :
    (Engine.step s (Event.WindowEvt (WinWindowEvent.Resized sz)) inp).state.render_state =
        (s.render_state.resize sz).1 ∧
    (Engine.step s (Event.WindowEvt (WinWindowEvent.Resized sz)) inp).state.time = s.time ∧
    (Engine.step s (Event.WindowEvt (WinWindowEvent.Resized sz)) inp).state.control_flow =
        s.control_flow ∧
    (Engine.step s (Event.WindowEvt (WinWindowEvent.Resized sz)) inp).acts =
        Act.handle_event_act (Event.WindowEvt (WinWindowEvent.Resized sz)) ::
          (s.render_state.resize sz).2 ∧
    Act.request_redraw_act ∉
        (Engine.step s (Event.WindowEvt (WinWindowEvent.Resized sz)) inp).acts ∧
    (Engine.step s (Event.WindowEvt (WinWindowEvent.Resized sz)) inp).panicked = false := by
  refine ⟨rfl, rfl, rfl, rfl, ?_, rfl⟩
  simp only [Engine.step, RenderState.resize]
  split <;> simp

/-- Inversion for `RenderState.new`: a successful initialization means the
adapter and device requests succeeded, a preferred format was returned, and
the resulting state is exactly the configured record. -/
lemma RenderState.new_some {env : GpuEnv} {sz : PhysicalSize} {rs : RenderState}
    (h : RenderState.new env sz = some rs) :
    env.adapterFound = true ∧ env.deviceOk = true ∧
    ∃ fmt, env.preferredFormat = some fmt ∧
      rs = { size := sz
             surface_config :=
               { usage := TextureUsages.RENDER_ATTACHMENT
                 format := fmt
                 width := sz.width
                 height := sz.height
                 present_mode := RenderState.present_mode }
             surface_applied :=
               { usage := TextureUsages.RENDER_ATTACHMENT
                 format := fmt
                 width := sz.width
                 height := sz.height
                 present_mode := RenderState.present_mode }
             previous_ui_draw_time := none } := by
  cases hA : env.adapterFound <;> rw [RenderState.new] at h <;> simp [hA] at h
  cases hD : env.deviceOk <;> simp [hD] at h
  cases hf : env.preferredFormat with
  | none => simp [hf] at h
  | some fmt =>
      simp [hf] at h
      exact ⟨rfl, rfl, fmt, rfl, h.symm⟩

/-- A concrete GPU environment in which every initialization step succeeds. -/
def sampleGpuEnv : GpuEnv :=
  { adapterFound := true
    deviceOk := true
    preferredFormat := some { id := 0 }
    formatSupported := fun _ => true
    preferred_is_supported := fun _ _ => rfl }

/-- A concrete GPU environment with no compatible adapter. -/
def sampleNoAdapterEnv : GpuEnv :=
  { adapterFound := false
    deviceOk := true
    preferredFormat := some { id := 0 }
    formatSupported := fun _ => true
    preferred_is_supported := fun _ _ => rfl }

/-- C9: initialization uses fixed compile-time constants — a 1280×720
startup window titled "wgpu-engine", the Vulkan backend, the
high-performance power preference — and configures the surface with the
window's current size, RENDER_ATTACHMENT usage, a format supported by
device and surface, and the vsync-bounded Fifo present mode, applying it to
the surface; it fails fatally when no adapter is found, when no device is
obtained, or when window creation fails. -/
theorem c9_initialization :
    WIDTH = 1280 ∧ HEIGHT = 720 ∧
    Engine.window_builder.title = "wgpu-engine" ∧
    Engine.window_builder.inner_width = 1280 ∧
    Engine.window_builder.inner_height = 720 ∧
    RenderState.backends = Backends.VULKAN ∧
    RenderState.power_preference = PowerPreference.HighPerformance ∧
    RenderState.present_mode = PresentMode.Fifo ∧
    (∀ (env : GpuEnv) (sz : PhysicalSize) (rs : RenderState),
        RenderState.new env sz = some rs →
        rs.surface_config.usage = TextureUsages.RENDER_ATTACHMENT ∧
        rs.surface_config.present_mode = PresentMode.Fifo ∧
        rs.surface_config.width = sz.width ∧
        rs.surface_config.height = sz.height ∧
        env.formatSupported rs.surface_config.format = true ∧
        rs.surface_applied = rs.surface_config) ∧
    (∀ (env : GpuEnv) (sz : PhysicalSize), env.adapterFound = false →
        RenderState.new env sz = none) ∧
    (∀ (env : GpuEnv) (sz : PhysicalSize), env.deviceOk = false →
        RenderState.new env sz = none) ∧
    (∀ (env : GpuEnv), Engine.load false env = none) := by
  refine ⟨rfl, rfl, rfl, rfl, rfl, rfl, rfl, rfl, ?_, ?_, ?_, fun env => rfl⟩
  · intro env sz rs h
    obtain ⟨hA, hD, fmt, hf, rfl⟩ := RenderState.new_some h
    exact ⟨rfl, rfl, rfl, rfl, env.preferred_is_supported fmt hf, rfl⟩
  · intro env sz h
    rw [RenderState.new]
    simp [h]
  · intro env sz h
    rw [RenderState.new]
    simp [h]

/-- C9 witness: the theorem applied to a concrete all-succeeding environment
at the startup size, and to a concrete environment lacking an adapter. -/
theorem c9_initialization_witness :
    sampleRenderState.surface_config.usage = TextureUsages.RENDER_ATTACHMENT ∧
    sampleRenderState.surface_config.width = 1280 ∧
    sampleGpuEnv.formatSupported sampleRenderState.surface_config.format = true ∧
    RenderState.new sampleNoAdapterEnv { width := 1280, height := 720 } = none :=
  ⟨(c9_initialization.2.2.2.2.2.2.2.2.1 sampleGpuEnv { width := 1280, height := 720 }
      sampleRenderState rfl).1,
   (c9_initialization.2.2.2.2.2.2.2.2.1 sampleGpuEnv { width := 1280, height := 720 }
      sampleRenderState rfl).2.2.1,
   (c9_initialization.2.2.2.2.2.2.2.2.1 sampleGpuEnv { width := 1280, height := 720 }
      sampleRenderState rfl).2.2.2.2.1,
   c9_initialization.2.2.2.2.2.2.2.2.2.1 sampleNoAdapterEnv
      { width := 1280, height := 720 } rfl⟩

/-- The invariant that the stored surface configuration always matches the
stored window size. -/
def RenderState.configMatchesSize (s : RenderState) : Prop :=
  s.surface_config.width = s.size.width ∧ s.surface_config.height = s.size.height

/-- C10: every operation on the render state keeps the configuration's width
and height equal to the stored size's, and none of them ever changes the
configuration's pixel format, presentation mode or usage flags after
initialization: `new` establishes the invariant, `resize` preserves it and
touches only width/height, `update` changes nothing, and `render` never
touches the configuration or the size at all. -/
theorem c10_config_invariant :
    (∀ (env : GpuEnv) (sz : PhysicalSize) (rs : RenderState),
        RenderState.new env sz = some rs → rs.configMatchesSize) ∧
    (∀ (s : RenderState) (sz : PhysicalSize), s.configMatchesSize →
        (s.resize sz).1.configMatchesSize ∧
        (s.resize sz).1.surface_config.format = s.surface_config.format ∧
        (s.resize sz).1.surface_config.present_mode = s.surface_config.present_mode ∧
        (s.resize sz).1.surface_config.usage = s.surface_config.usage) ∧
    (∀ (s : RenderState), s.update.1 = s) ∧
    (∀ (s : RenderState) (inp : FrameInputs),
        (s.render inp).state.surface_config = s.surface_config ∧
        (s.render inp).state.size = s.size ∧
        (s.configMatchesSize → (s.render inp).state.configMatchesSize)) := by
  refine ⟨?_, ?_, fun s => rfl, ?_⟩
  · intro env sz rs h
    obtain ⟨hA, hD, fmt, hf, rfl⟩ := RenderState.new_some h
    exact ⟨rfl, rfl⟩
  · intro s sz h
    rw [RenderState.resize]
    split
    · exact ⟨⟨rfl, rfl⟩, rfl, rfl, rfl⟩
    · exact ⟨h, rfl, rfl, rfl⟩
  · intro s inp
    obtain ⟨acq, exec, ui, now⟩ := inp
    cases acq with
    | ok =>
        cases exec <;> exact ⟨rfl, rfl, fun h => h⟩
    | err e =>
        cases e <;> exact ⟨rfl, rfl, fun h => h⟩

/-- C10 witness: the theorem applied to a concrete resize of the startup
state. -/
theorem c10_config_invariant_witness :
    (sampleRenderState.resize { width := 800, height := 600 }).1.surface_config.format =
        sampleRenderState.surface_config.format ∧
    (sampleRenderState.resize { width := 800, height := 600 }).1.surface_config.width =
        (sampleRenderState.resize { width := 800, height := 600 }).1.size.width :=
  ⟨(c10_config_invariant.2.1 sampleRenderState { width := 800, height := 600 }
      ⟨rfl, rfl⟩).2.1,
   (c10_config_invariant.2.1 sampleRenderState { width := 800, height := 600 }
      ⟨rfl, rfl⟩).1.1⟩

end WgpuEngine
